import Mathlib

/-!
Formal model of the Varuna risk-and-protection decision core.

The definitions below are a shallow embedding of the TypeScript sources:
the risk engine (`RiskEngine` in `services/risk-engine.ts`), the protection
engine (`ProtectionEngine`), and the collateral analyzer
(`CollateralAnalyzer`).  JavaScript numbers are modelled as rationals `ℚ`,
`Math.round` as `⌊x + 1/2⌋` (round half toward positive infinity, the JS
behaviour on the non-negative scores it is applied to), and
`Array.prototype.sort` as an insertion sort with the comparator turned into
a total preorder.  Strings that are purely presentational (the `detail`,
`reason` and `id` fields, which are never read back by any computation) are
omitted from the records.
-/

namespace Varuna

/-- JS `Math.round` on the rationals: round half toward positive infinity. -/
def jsRound (q : ℚ) : ℚ := ((⌊q + 1/2⌋ : ℤ) : ℚ)

/-- JS `array.slice(-n)`: the last `n` elements, the whole array when `n = 0`
(because `-0 === 0` in JS) or when `n` exceeds the length. -/
def jsSliceLast (n : ℕ) (l : List α) : List α :=
  if n = 0 then l else l.drop (l.length - n)

/-- JS `s || d` on strings: `d` when `s` is the empty string. -/
def jsOrStr (s d : String) : String := if s = "" then d else s

-- ─── Position model (`types/index.ts`) ─────────────────────────────

/-- The closed set of supported lending protocols. -/
inductive Protocol
  | kamino
  | marginfi
  | solend
deriving DecidableEq

/-- One collateral asset of a position (the `mint` address is never read by
the decision core and is omitted). -/
structure CollateralAsset where
  symbol : String
  amount : ℚ
  valueUsd : ℚ
deriving DecidableEq

/-- One debt asset of a position. -/
structure DebtAsset where
  symbol : String
  amount : ℚ
  valueUsd : ℚ
  interestRate : ℚ
deriving DecidableEq

/-- A lending-position snapshot (`LendingPosition`). -/
structure LendingPosition where
  protocol : Protocol
  wallet : String
  collateral : List CollateralAsset
  debt : List DebtAsset
  healthFactor : ℚ
  liquidationThreshold : ℚ
deriving DecidableEq

/-- `position.collateral.reduce((s, c) => s + c.valueUsd, 0)`. -/
def totalCollateralUsd (pos : LendingPosition) : ℚ :=
  (pos.collateral.map CollateralAsset.valueUsd).sum

/-- `position.debt.reduce((s, d) => s + d.valueUsd, 0)`. -/
def totalDebtUsd (pos : LendingPosition) : ℚ :=
  (pos.debt.map DebtAsset.valueUsd).sum

/-- `HealthSnapshot`: one health-factor sample (timestamp in milliseconds). -/
structure HealthSnapshot where
  healthFactor : ℚ
  timestamp : ℚ
deriving DecidableEq

inductive RiskLevel
  | safe
  | low
  | medium
  | high
  | critical
deriving DecidableEq

/-- `RiskFactor` without its presentational `detail` string. -/
structure RiskFactor where
  name : String
  score : ℚ
  weight : ℚ
deriving DecidableEq

inductive Urgency
  | immediate
  | soon
  | monitor
deriving DecidableEq

inductive RecAction
  | repay
  | addCollateral
  | unwind
  | noAction
deriving DecidableEq

/-- `ProtectionRecommendation` without its presentational `reason` string. -/
structure ProtectionRecommendation where
  action : RecAction
  urgency : Urgency
  amount : Option ℚ
deriving DecidableEq

structure RiskAssessment where
  wallet : String
  protocol : Protocol
  riskLevel : RiskLevel
  riskScore : ℚ
  healthFactor : ℚ
  factors : List RiskFactor
  recommendations : List ProtectionRecommendation
deriving DecidableEq

-- ─── Risk engine (`services/risk-engine.ts`) ───────────────────────

structure Thresholds where
  safe : ℚ
  low : ℚ
  medium : ℚ
  high : ℚ
deriving DecidableEq

structure RiskEngineConfig where
  thresholds : Thresholds
  positionSizeScaling : Bool
  trendWindowSize : ℕ
  trendMinSamples : ℕ

/-- The threshold chain the default configuration satisfies: the four
health-factor thresholds sit strictly above the liquidation point in
ascending order. -/
def ThOrdered (th : Thresholds) : Prop :=
  1 < th.high ∧ th.high < th.medium ∧ th.medium < th.low ∧ th.low < th.safe

/-- `DEFAULT_CONFIG` of the risk engine. -/
def defaultRiskConfig : RiskEngineConfig :=
  { thresholds := { safe := 2.0, low := 1.5, medium := 1.25, high := 1.1 }
    positionSizeScaling := true
    trendWindowSize := 20
    trendMinSamples := 3 }

structure ProtocolParams where
  closeFactor : ℚ
  liquidationPenalty : ℚ
  minHfBuffer : ℚ

/-- `PROTOCOL_PARAMS`: protocol-specific liquidation parameters (the table
covers every member of the closed protocol set, so the `null` fallback of
the record lookup is unreachable). -/
def protocolParams : Protocol → ProtocolParams
  | .kamino => { closeFactor := 0.5, liquidationPenalty := 0.05, minHfBuffer := 0.05 }
  | .marginfi => { closeFactor := 1.0, liquidationPenalty := 0.05, minHfBuffer := 0.08 }
  | .solend => { closeFactor := 0.5, liquidationPenalty := 0.05, minHfBuffer := 0.05 }

/-- `getEffectiveThresholds`: larger positions are scored against scaled-up
thresholds. -/
def getEffectiveThresholds (cfg : RiskEngineConfig) (pos : LendingPosition) : Thresholds :=
  if !cfg.positionSizeScaling then cfg.thresholds
  else
    let totalValue := totalCollateralUsd pos
    let scaleFactor : ℚ :=
      if totalValue > 1000000 then 1.15
      else if totalValue > 100000 then 1.08
      else if totalValue > 10000 then 1.03
      else 1.0
    { safe := cfg.thresholds.safe * scaleFactor
      low := cfg.thresholds.low * scaleFactor
      medium := cfg.thresholds.medium * scaleFactor
      high := cfg.thresholds.high * scaleFactor }

/-- The piecewise-linear raw health-factor score of `assessHealthFactor`. -/
def hfRaw (th : Thresholds) (hf : ℚ) : ℚ :=
  if hf ≤ 1 then 100
  else if hf < th.high then 90 + (1 - (hf - 1) / (th.high - 1)) * 10
  else if hf < th.medium then 60 + (1 - (hf - th.high) / (th.medium - th.high)) * 30
  else if hf < th.low then 30 + (1 - (hf - th.medium) / (th.low - th.medium)) * 30
  else if hf < th.safe then 10 + (1 - (hf - th.low) / (th.safe - th.low)) * 20
  else max 0 (10 - (hf - th.safe) * 5)

/-- `assessHealthFactor` (weight 0.45). -/
def assessHealthFactor (cfg : RiskEngineConfig) (pos : LendingPosition) : RiskFactor :=
  let th := getEffectiveThresholds cfg pos
  { name := "health_factor"
    score := max 0 (min 100 (jsRound (hfRaw th pos.healthFactor)))
    weight := 0.45 }

/-- `assessUtilization` (weight 0.15). -/
def assessUtilization (pos : LendingPosition) : RiskFactor :=
  let totalCollateral := totalCollateralUsd pos
  let totalDebt := totalDebtUsd pos
  if totalCollateral = 0 then { name := "utilization", score := 0, weight := 0.15 }
  else
    let u := totalDebt / totalCollateral
    let score : ℚ :=
      if u < 0.3 then u / 0.3 * 15
      else if u < 0.5 then 15 + (u - 0.3) / 0.2 * 20
      else if u < 0.7 then 35 + (u - 0.5) / 0.2 * 30
      else if u < 0.85 then 65 + (u - 0.7) / 0.15 * 25
      else 90 + min 10 ((u - 0.85) / 0.15 * 10)
    { name := "utilization", score := jsRound (min 100 score), weight := 0.15 }

/-- `assessConcentration` (weight 0.10): Herfindahl-Hirschman index. -/
def assessConcentration (pos : LendingPosition) : RiskFactor :=
  let totalValue := totalCollateralUsd pos
  if pos.collateral.length ≤ 1 ∨ totalValue = 0 then
    { name := "concentration", score := if totalValue > 0 then 40 else 0, weight := 0.10 }
  else
    let hhi := (pos.collateral.map (fun c => (c.valueUsd / totalValue) * (c.valueUsd / totalValue))).sum
    { name := "concentration", score := jsRound (hhi * 60), weight := 0.10 }

/-- The velocity-to-score mapping inside `assessTrend`. -/
def trendVelocityScore (v : ℚ) : ℚ :=
  if v > 0.01 then max 0 (15 - v * 100)
  else if v > -0.005 then 25
  else if v > -0.02 then 50
  else if v > -0.05 then 75
  else 95

/-- `assessTrend` (weight 0.20), as a function of the recorded history of
the position's `(wallet, protocol)` key.  The estimated minutes-to-liquidation
only feeds the presentational `detail` string and is omitted. -/
def assessTrend (cfg : RiskEngineConfig) (hist : List HealthSnapshot) : RiskFactor :=
  if hist.length < cfg.trendMinSamples then
    { name := "trend", score := 25, weight := 0.20 }
  else
    let recent := jsSliceLast cfg.trendWindowSize hist
    let oldest := recent.headD { healthFactor := 0, timestamp := 0 }
    let newest := recent.getLastD { healthFactor := 0, timestamp := 0 }
    let timeDeltaMin := (newest.timestamp - oldest.timestamp) / 60000
    if timeDeltaMin < 0.1 then
      { name := "trend", score := 25, weight := 0.20 }
    else
      let velocity := (newest.healthFactor - oldest.healthFactor) / timeDeltaMin
      { name := "trend", score := jsRound (min 100 (trendVelocityScore velocity)), weight := 0.20 }

/-- `assessProtocolRisk` (weight 0.10): omitted (`null`) when no penalty
condition applies. -/
def assessProtocolRisk (pos : LendingPosition) : Option RiskFactor :=
  let params := protocolParams pos.protocol
  let score : ℚ :=
    (if params.closeFactor ≥ 1.0 then 20 else 0) +
    (if params.liquidationPenalty > 0.05 then 15 else 0)
  if score = 0 then none
  else some { name := "protocol_risk", score := score, weight := 0.10 }

/-- `scoreToLevel`: fixed score-to-level breakpoints. -/
def scoreToLevel (score : ℚ) : RiskLevel :=
  if score ≥ 80 then .critical
  else if score ≥ 60 then .high
  else if score ≥ 40 then .medium
  else if score ≥ 20 then .low
  else .safe

/-- `recordSnapshot`: append the new sample, trimming to the trend window
once the buffer exceeds twice the window size. -/
def recordSnapshot (cfg : RiskEngineConfig) (hist : List HealthSnapshot)
    (snap : HealthSnapshot) : List HealthSnapshot :=
  let h := hist ++ [snap]
  if h.length > cfg.trendWindowSize * 2 then jsSliceLast cfg.trendWindowSize h else h

/-- `Math.round(x * 100) / 100` used on recommendation amounts. -/
def round2 (x : ℚ) : ℚ := jsRound (x * 100) / 100

/-- `generateRecommendations` (reason strings omitted). -/
def generateRecommendations (pos : LendingPosition) (riskLevel : RiskLevel)
    (factors : List RiskFactor) : List ProtectionRecommendation :=
  let totalDebt := totalDebtUsd pos
  let totalCollateral := totalCollateralUsd pos
  match riskLevel with
  | .safe => [{ action := .noAction, urgency := .monitor, amount := none }]
  | .critical =>
    let targetHf : ℚ := 1.5
    let liqThreshold := pos.liquidationThreshold
    let safeDebt := totalCollateral * liqThreshold / targetHf
    let repayAmount := max 0 (totalDebt - safeDebt)
    let safeCollateral := totalDebt * targetHf / liqThreshold
    let addAmount := max 0 (safeCollateral - totalCollateral)
    (if repayAmount > 0 then
      [{ action := .repay, urgency := .immediate, amount := some (round2 repayAmount) }]
     else []) ++
    (if addAmount > 0 then
      [{ action := .addCollateral, urgency := .immediate, amount := some (round2 addAmount) }]
     else [])
  | .high =>
    let targetHf : ℚ := 1.5
    let liqThreshold := pos.liquidationThreshold
    let safeDebt := totalCollateral * liqThreshold / targetHf
    let repayAmount := max 0 (totalDebt - safeDebt)
    if repayAmount > 0 then
      [{ action := .repay, urgency := .soon, amount := some (round2 repayAmount) }]
    else []
  | .medium =>
    match factors.find? (fun f => f.name == "trend") with
    | some trendFactor =>
      if trendFactor.score > 50 then
        [{ action := .repay, urgency := .soon, amount := none }]
      else [{ action := .noAction, urgency := .monitor, amount := none }]
    | none => [{ action := .noAction, urgency := .monitor, amount := none }]
  | .low => [{ action := .noAction, urgency := .monitor, amount := none }]

/-- The risk-factor list assembled by `assessPosition` over the
already-recorded history. -/
def riskFactors (cfg : RiskEngineConfig) (hist : List HealthSnapshot)
    (pos : LendingPosition) : List RiskFactor :=
  [assessHealthFactor cfg pos, assessUtilization pos, assessConcentration pos,
   assessTrend cfg hist] ++
  (match assessProtocolRisk pos with
   | some f => [f]
   | none => [])

/-- The weighted composite score of `assessPosition` before floor overrides:
`Math.min(100, Math.round(Σ score·weight / Σ weight))`. -/
def compositeScore (factors : List RiskFactor) : ℚ :=
  let totalWeight := (factors.map RiskFactor.weight).sum
  min 100 (jsRound ((factors.map (fun f => f.score * f.weight)).sum / totalWeight))

/-- The floor overrides of `assessPosition`: extreme health factors cannot be
diluted by the other factors. -/
def applyFloorOverride (hf score : ℚ) : ℚ :=
  if hf ≤ 1.0 then max score 100
  else if hf < 1.05 then max score 85
  else if hf < 1.1 then max score 70
  else score

/-- `assessPosition`, as a function of the history already recorded for the
position's `(wallet, protocol)` key and of the sampling time `now`
(milliseconds, `Date.now()`). -/
def assessPosition (cfg : RiskEngineConfig) (hist : List HealthSnapshot) (now : ℚ)
    (pos : LendingPosition) : RiskAssessment :=
  let hist' := recordSnapshot cfg hist { healthFactor := pos.healthFactor, timestamp := now }
  let factors := riskFactors cfg hist' pos
  let riskScore := applyFloorOverride pos.healthFactor (compositeScore factors)
  let riskLevel := scoreToLevel riskScore
  { wallet := pos.wallet
    protocol := pos.protocol
    riskLevel := riskLevel
    riskScore := riskScore
    healthFactor := pos.healthFactor
    factors := factors
    recommendations := generateRecommendations pos riskLevel factors }

-- ─── Protection engine (`services/protection-engine.ts`) ───────────

inductive Strategy
  | balanced
  | yieldOptimized
  | costOptimized
  | speedOptimized
deriving DecidableEq

structure YieldRates where
  supplyAPY : ℚ
  borrowAPY : ℚ
deriving DecidableEq

/-- `DEFAULT_YIELD_RATES`: per-protocol yield approximations for scoring. -/
def defaultYieldRates : Protocol → YieldRates
  | .kamino => { supplyAPY := 0.065, borrowAPY := 0.085 }
  | .marginfi => { supplyAPY := 0.055, borrowAPY := 0.090 }
  | .solend => { supplyAPY := 0.045, borrowAPY := 0.075 }

structure ProtectionEngineConfig where
  targetHealthFactor : ℚ
  maxProtectionUsd : ℚ
  dryRun : Bool
  preferredStrategy : Strategy
  yieldRates : Protocol → Option YieldRates

/-- `DEFAULT_CONFIG` of the protection engine. -/
def defaultProtectionConfig : ProtectionEngineConfig :=
  { targetHealthFactor := 1.5
    maxProtectionUsd := 10000
    dryRun := true
    preferredStrategy := .yieldOptimized
    yieldRates := fun p => some (defaultYieldRates p) }

/-- `this.config.yieldRates[position.protocol] || DEFAULT_YIELD_RATES.kamino`. -/
def getYields (cfg : ProtectionEngineConfig) (p : Protocol) : YieldRates :=
  (cfg.yieldRates p).getD (defaultYieldRates .kamino)

structure YieldImpact where
  currentAPY : ℚ
  projectedAPY : ℚ
  yieldDeltaPercent : ℚ
  annualizedCostUsd : ℚ
deriving DecidableEq

inductive PAction
  | repay
  | addCollateral
  | unwind
deriving DecidableEq

/-- `ProtectionOption` without its presentational `id` and `reason` strings. -/
structure ProtectionOption where
  action : PAction
  protocol : Protocol
  asset : String
  amount : ℚ
  amountUsd : ℚ
  resultingHF : ℚ
  resultingDebtUsd : ℚ
  resultingCollateralUsd : ℚ
  yieldImpact : YieldImpact
  capitalCostUsd : ℚ
  yieldCostAnnualUsd : ℚ
  totalScoreUsd : ℚ
  viable : Bool
deriving DecidableEq

/-- `calculateEffectiveAPY`: net APY of the leveraged position on its equity. -/
def calculateEffectiveAPY (collateralUsd debtUsd : ℚ) (yields : YieldRates) : ℚ :=
  let equity := collateralUsd - debtUsd
  if equity ≤ 0 then 0
  else (collateralUsd * yields.supplyAPY - debtUsd * yields.borrowAPY) / equity

/-- The `YieldImpact` record as each option branch constructs it. -/
def mkYieldImpact (cur proj netYieldChange : ℚ) : YieldImpact :=
  { currentAPY := cur
    projectedAPY := proj
    yieldDeltaPercent := if cur ≠ 0 then (proj - cur) / |cur| * 100 else 0
    annualizedCostUsd := -netYieldChange }

/-- `position.debt[0]?.symbol || 'DEBT'`. -/
def headDebtSymbol (pos : LendingPosition) : String :=
  match pos.debt with
  | [] => "DEBT"
  | d :: _ => jsOrStr d.symbol "DEBT"

/-- `position.collateral[0]?.symbol || 'COLLATERAL'`. -/
def headCollateralSymbol (pos : LendingPosition) : String :=
  match pos.collateral with
  | [] => "COLLATERAL"
  | c :: _ => jsOrStr c.symbol "COLLATERAL"

/-- The target debt and repay amount shared by the repay and unwind branches:
`repayAmount = max(0, debt - (collateral·threshold)/targetHF)`. -/
def repayAmountOf (cfg : ProtectionEngineConfig) (pos : LendingPosition) : ℚ :=
  max 0 (totalDebtUsd pos - totalCollateralUsd pos * pos.liquidationThreshold / cfg.targetHealthFactor)

/-- Option A of `evaluateOptions`: repay debt (empty when not generated). -/
def repayOptions (cfg : ProtectionEngineConfig) (pos : LendingPosition) : List ProtectionOption :=
  let totalDebt := totalDebtUsd pos
  let totalCollateral := totalCollateralUsd pos
  let liqThreshold := pos.liquidationThreshold
  let yields := getYields cfg pos.protocol
  let repayAmount := repayAmountOf cfg pos
  if repayAmount > 0 ∧ repayAmount ≤ cfg.maxProtectionUsd then
    let newDebt := totalDebt - repayAmount
    let newHF := if totalCollateral > 0 ∧ newDebt > 0
      then totalCollateral * liqThreshold / newDebt
      else 999
    let borrowSaved := repayAmount * yields.borrowAPY
    let supplyCost := repayAmount * yields.supplyAPY
    let netYieldChange := borrowSaved - supplyCost
    let yi := mkYieldImpact (calculateEffectiveAPY totalCollateral totalDebt yields)
      (calculateEffectiveAPY totalCollateral newDebt yields) netYieldChange
    [{ action := .repay
       protocol := pos.protocol
       asset := headDebtSymbol pos
       amount := repayAmount
       amountUsd := repayAmount
       resultingHF := newHF
       resultingDebtUsd := newDebt
       resultingCollateralUsd := totalCollateral
       yieldImpact := yi
       capitalCostUsd := repayAmount
       yieldCostAnnualUsd := yi.annualizedCostUsd
       totalScoreUsd := repayAmount + yi.annualizedCostUsd
       viable := true }]
  else []

/-- Option B of `evaluateOptions`: add collateral (empty when not generated). -/
def addCollateralOptions (cfg : ProtectionEngineConfig) (pos : LendingPosition) :
    List ProtectionOption :=
  let totalDebt := totalDebtUsd pos
  let totalCollateral := totalCollateralUsd pos
  let liqThreshold := pos.liquidationThreshold
  let yields := getYields cfg pos.protocol
  let targetCollateral := totalDebt * cfg.targetHealthFactor / liqThreshold
  let addAmount := max 0 (targetCollateral - totalCollateral)
  if addAmount > 0 ∧ addAmount ≤ cfg.maxProtectionUsd then
    let newCollateral := totalCollateral + addAmount
    let newHF := if totalDebt > 0 then newCollateral * liqThreshold / totalDebt else 999
    let additionalYield := addAmount * yields.supplyAPY
    let yi := mkYieldImpact (calculateEffectiveAPY totalCollateral totalDebt yields)
      (calculateEffectiveAPY newCollateral totalDebt yields) additionalYield
    [{ action := .addCollateral
       protocol := pos.protocol
       asset := headCollateralSymbol pos
       amount := addAmount
       amountUsd := addAmount
       resultingHF := newHF
       resultingDebtUsd := totalDebt
       resultingCollateralUsd := newCollateral
       yieldImpact := yi
       capitalCostUsd := addAmount
       yieldCostAnnualUsd := yi.annualizedCostUsd
       totalScoreUsd := addAmount + yi.annualizedCostUsd
       viable := true }]
  else []

/-- Option C of `evaluateOptions`: partial unwind — repay 60% of the
full-repay amount while withdrawing 80% of that in collateral.  Note that,
unlike the repay and add-collateral branches, this branch performs no
`maxProtectionUsd` budget check. -/
def unwindOptions (cfg : ProtectionEngineConfig) (pos : LendingPosition) :
    List ProtectionOption :=
  let totalDebt := totalDebtUsd pos
  let totalCollateral := totalCollateralUsd pos
  let liqThreshold := pos.liquidationThreshold
  let yields := getYields cfg pos.protocol
  if totalDebt > 0 ∧ totalCollateral > 0 then
    let unwindRepay := repayAmountOf cfg pos * 0.6
    let unwindWithdraw := unwindRepay * 0.8
    let newDebt := totalDebt - unwindRepay
    let newCollateral := totalCollateral - unwindWithdraw
    if unwindRepay > 0 ∧ newDebt > 0 ∧ newCollateral > 0 then
      let newHF := newCollateral * liqThreshold / newDebt
      if newHF ≥ cfg.targetHealthFactor * 0.9 then
        let lostSupplyYield := unwindWithdraw * yields.supplyAPY
        let savedBorrowCost := unwindRepay * yields.borrowAPY
        let netYieldChange := savedBorrowCost - lostSupplyYield
        let yi := mkYieldImpact (calculateEffectiveAPY totalCollateral totalDebt yields)
          (calculateEffectiveAPY newCollateral newDebt yields) netYieldChange
        [{ action := .unwind
           protocol := pos.protocol
           asset := "POSITION"
           amount := unwindRepay
           amountUsd := unwindRepay
           resultingHF := newHF
           resultingDebtUsd := newDebt
           resultingCollateralUsd := newCollateral
           yieldImpact := yi
           capitalCostUsd := 0
           yieldCostAnnualUsd := yi.annualizedCostUsd
           totalScoreUsd := yi.annualizedCostUsd
           viable := true }]
      else []
    else []
  else []

/-- The candidate options pushed by `evaluateOptions` before ranking. -/
def candidateOptions (cfg : ProtectionEngineConfig) (pos : LendingPosition) :
    List ProtectionOption :=
  repayOptions cfg pos ++ addCollateralOptions cfg pos ++ unwindOptions cfg pos

/-- Comparator of the `yield-optimized` strategy. -/
def yieldLE (a b : ProtectionOption) : Prop := a.yieldCostAnnualUsd ≤ b.yieldCostAnnualUsd

/-- Comparator of the `cost-optimized` strategy. -/
def costLE (a b : ProtectionOption) : Prop := a.capitalCostUsd ≤ b.capitalCostUsd

/-- Comparator of the `speed-optimized` strategy (descending resulting HF). -/
def speedLE (a b : ProtectionOption) : Prop := b.resultingHF ≤ a.resultingHF

/-- Comparator of the default (`balanced`) strategy. -/
def scoreLE (a b : ProtectionOption) : Prop := a.totalScoreUsd ≤ b.totalScoreUsd

instance : DecidableRel yieldLE := fun _ _ => inferInstanceAs (Decidable (_ ≤ _))
instance : DecidableRel costLE := fun _ _ => inferInstanceAs (Decidable (_ ≤ _))
instance : DecidableRel speedLE := fun _ _ => inferInstanceAs (Decidable (_ ≤ _))
instance : DecidableRel scoreLE := fun _ _ => inferInstanceAs (Decidable (_ ≤ _))

instance : IsTotal ProtectionOption yieldLE := ⟨fun _ _ => le_total _ _⟩
instance : IsTotal ProtectionOption costLE := ⟨fun _ _ => le_total _ _⟩
instance : IsTotal ProtectionOption speedLE := ⟨fun _ _ => le_total _ _⟩
instance : IsTotal ProtectionOption scoreLE := ⟨fun _ _ => le_total _ _⟩

instance : IsTrans ProtectionOption yieldLE := ⟨fun _ _ _ h h' => le_trans h h'⟩
instance : IsTrans ProtectionOption costLE := ⟨fun _ _ _ h h' => le_trans h h'⟩
instance : IsTrans ProtectionOption speedLE := ⟨fun _ _ _ h h' => le_trans h' h⟩
instance : IsTrans ProtectionOption scoreLE := ⟨fun _ _ _ h h' => le_trans h h'⟩

/-- `rankOptions`: sort by the comparator the preferred strategy selects. -/
def rankOptions (cfg : ProtectionEngineConfig) (options : List ProtectionOption) :
    List ProtectionOption :=
  match cfg.preferredStrategy with
  | .yieldOptimized => List.insertionSort yieldLE options
  | .costOptimized => List.insertionSort costLE options
  | .speedOptimized => List.insertionSort speedLE options
  | .balanced => List.insertionSort scoreLE options

/-- `evaluateOptions`: no options when the assessed risk level is safe or
low; otherwise the ranked candidate options. -/
def evaluateOptions (cfg : ProtectionEngineConfig) (pos : LendingPosition)
    (assessment : RiskAssessment) : List ProtectionOption :=
  if assessment.riskLevel = .safe ∨ assessment.riskLevel = .low then []
  else rankOptions cfg (candidateOptions cfg pos)

/-- `selectBestOption`: first viable option of the ranked list. -/
def selectBestOption (options : List ProtectionOption) : Option ProtectionOption :=
  (options.filter (fun o => o.viable)).head?

/-- The placeholder option recorded when no viable option exists. -/
def noOpOption (pos : LendingPosition) : ProtectionOption :=
  { action := .repay
    protocol := pos.protocol
    asset := "NONE"
    amount := 0
    amountUsd := 0
    resultingHF := pos.healthFactor
    resultingDebtUsd := totalDebtUsd pos
    resultingCollateralUsd := totalCollateralUsd pos
    yieldImpact := { currentAPY := 0, projectedAPY := 0, yieldDeltaPercent := 0, annualizedCostUsd := 0 }
    capitalCostUsd := 0
    yieldCostAnnualUsd := 0
    totalScoreUsd := 0
    viable := false }

/-- `ProtectionResult` (timing and timestamp fields omitted: they are wall
clock readings, not decision data). -/
structure ProtectionResult where
  success : Bool
  option : ProtectionOption
  txSignature : Option String
  previousHF : ℚ
  newHF : Option ℚ
  errorMsg : Option String
  dryRun : Bool
deriving DecidableEq

/-- What one `protect` call produces: the returned result, the updated
execution log, and whether an external transaction was attempted. -/
structure ProtectOutcome where
  result : ProtectionResult
  log : List ProtectionResult
  externalAction : Bool
deriving DecidableEq

/-- `protect`: evaluate, select, then dry-run or execute.  The external
build-and-submit step is modelled by its outcome `submit` (`.ok signature`
or `.error message`, covering any error raised while building or sending
the transaction); `hasSigner` models whether a signer keypair was passed;
`log` is the execution log before the call. -/
def protect (cfg : ProtectionEngineConfig) (pos : LendingPosition)
    (assessment : RiskAssessment) (hasSigner : Bool)
    (submit : Except String String) (log : List ProtectionResult) : ProtectOutcome :=
  let options := evaluateOptions cfg pos assessment
  if options.length = 0 then
    { result :=
        { success := false
          option := noOpOption pos
          txSignature := none
          previousHF := pos.healthFactor
          newHF := none
          errorMsg := some "No viable protection options"
          dryRun := cfg.dryRun }
      log := log
      externalAction := false }
  else
    let best := (selectBestOption options).getD (noOpOption pos)
    if cfg.dryRun ∨ hasSigner = false then
      let r : ProtectionResult :=
        { success := true
          option := best
          txSignature := none
          previousHF := pos.healthFactor
          newHF := some best.resultingHF
          errorMsg := none
          dryRun := true }
      { result := r, log := log ++ [r], externalAction := false }
    else
      match submit with
      | .ok signature =>
        let r : ProtectionResult :=
          { success := true
            option := best
            txSignature := some signature
            previousHF := pos.healthFactor
            newHF := some best.resultingHF
            errorMsg := none
            dryRun := false }
        { result := r, log := log ++ [r], externalAction := true }
      | .error msg =>
        let r : ProtectionResult :=
          { success := false
            option := best
            txSignature := none
            previousHF := pos.healthFactor
            newHF := none
            errorMsg := some msg
            dryRun := false }
        { result := r, log := log ++ [r], externalAction := true }

-- ─── Collateral analyzer (`services/collateral-analyzer.ts`) ───────

/-- One `ASSET_REGISTRY` entry (the `mint` address is never read by the
analyzer's computations and is omitted). -/
structure AssetProfileBase where
  symbol : String
  supplyAPY : ℚ
  stakingAPY : ℚ
  effectiveAPY : ℚ
  isLST : Bool
deriving DecidableEq

/-- `ASSET_REGISTRY`, in object-literal insertion order. -/
def assetRegistry : List (String × AssetProfileBase) :=
  [ ("SOL", { symbol := "SOL", supplyAPY := 0.035, stakingAPY := 0, effectiveAPY := 0.035, isLST := false })
  , ("mSOL", { symbol := "mSOL", supplyAPY := 0.028, stakingAPY := 0.072, effectiveAPY := 0.100, isLST := true })
  , ("JitoSOL", { symbol := "JitoSOL", supplyAPY := 0.030, stakingAPY := 0.078, effectiveAPY := 0.108, isLST := true })
  , ("bSOL", { symbol := "bSOL", supplyAPY := 0.025, stakingAPY := 0.068, effectiveAPY := 0.093, isLST := true })
  , ("INF", { symbol := "INF", supplyAPY := 0.032, stakingAPY := 0.082, effectiveAPY := 0.114, isLST := true })
  , ("USDC", { symbol := "USDC", supplyAPY := 0.055, stakingAPY := 0, effectiveAPY := 0.055, isLST := false })
  , ("USDT", { symbol := "USDT", supplyAPY := 0.048, stakingAPY := 0, effectiveAPY := 0.048, isLST := false })
  , ("BONK", { symbol := "BONK", supplyAPY := 0.015, stakingAPY := 0, effectiveAPY := 0.015, isLST := false })
  , ("ETH", { symbol := "ETH", supplyAPY := 0.020, stakingAPY := 0, effectiveAPY := 0.020, isLST := false }) ]

/-- One `PROTOCOL_COLLATERAL` entry: acceptance and liquidation threshold. -/
structure PCollatEntry where
  accepted : Bool
  liqThreshold : ℚ
deriving DecidableEq

/-- `PROTOCOL_COLLATERAL`. -/
def protocolCollateral : Protocol → List (String × PCollatEntry)
  | .kamino =>
    [ ("SOL", ⟨true, 0.85⟩), ("mSOL", ⟨true, 0.80⟩), ("JitoSOL", ⟨true, 0.80⟩)
    , ("bSOL", ⟨true, 0.78⟩), ("INF", ⟨true, 0.75⟩), ("USDC", ⟨true, 0.90⟩)
    , ("USDT", ⟨true, 0.88⟩), ("BONK", ⟨true, 0.50⟩), ("ETH", ⟨true, 0.82⟩) ]
  | .marginfi =>
    [ ("SOL", ⟨true, 0.90⟩), ("mSOL", ⟨true, 0.85⟩), ("JitoSOL", ⟨true, 0.85⟩)
    , ("bSOL", ⟨true, 0.82⟩), ("INF", ⟨false, 0⟩), ("USDC", ⟨true, 0.95⟩)
    , ("USDT", ⟨true, 0.92⟩), ("BONK", ⟨true, 0.40⟩), ("ETH", ⟨true, 0.85⟩) ]
  | .solend =>
    [ ("SOL", ⟨true, 0.85⟩), ("mSOL", ⟨true, 0.80⟩), ("JitoSOL", ⟨true, 0.80⟩)
    , ("bSOL", ⟨true, 0.78⟩), ("INF", ⟨false, 0⟩), ("USDC", ⟨true, 0.90⟩)
    , ("USDT", ⟨true, 0.88⟩), ("BONK", ⟨false, 0⟩), ("ETH", ⟨true, 0.82⟩) ]

/-- `MIN_SAFE_HF`: the fixed safety floor for recommended swaps. -/
def minSafeHF : ℚ := 1.25

/-- String-keyed record lookup (`record[key]`). -/
def lookupEntry : List (String × α) → String → Option α
  | [], _ => none
  | e :: rest, k => if e.1 = k then some e.2 else lookupEntry rest k

/-- The case-insensitive fuzzy pass of `resolveAssetProfile`. -/
def findUpper (upper : String) : List (String × AssetProfileBase) → Option AssetProfileBase
  | [] => none
  | e :: rest => if e.1.toUpper = upper then some e.2 else findUpper upper rest

/-- `resolveAssetProfile`: direct registry match, then case-insensitive
fuzzy match, else `null`. -/
def resolveAssetProfile (symbol : String) : Option AssetProfileBase :=
  match lookupEntry assetRegistry symbol with
  | some p => some p
  | none => findUpper symbol.toUpper assetRegistry

/-- The effective APY the analyzer attributes to a held symbol
(fallback 2% when the registry resolves nothing). -/
def currentAPYOf (symbol : String) : ℚ :=
  match resolveAssetProfile symbol with
  | some p => p.effectiveAPY
  | none => 0.02

structure HealthImpact where
  currentHF : ℚ
  projectedHF : ℚ
  safe : Bool
deriving DecidableEq

/-- `CollateralRecommendation`.  The `riskNote` string is presentational;
only its presence (new threshold strictly lower than the current one) is
modelled. -/
structure CollateralRecommendation where
  fromAsset : String
  fromAPY : ℚ
  toAsset : String
  toAPY : ℚ
  yieldBoostPercent : ℚ
  yieldBoostAbsolutePercent : ℚ
  annualGainUsd : ℚ
  healthImpact : HealthImpact
  riskNote : Bool
deriving DecidableEq

/-- Comparator of the descending `annualGainUsd` sorts. -/
def gainGE (a b : CollateralRecommendation) : Prop := b.annualGainUsd ≤ a.annualGainUsd

instance : DecidableRel gainGE := fun _ _ => inferInstanceAs (Decidable (_ ≤ _))
instance : IsTotal CollateralRecommendation gainGE := ⟨fun _ _ => le_total _ _⟩
instance : IsTrans CollateralRecommendation gainGE := ⟨fun _ _ _ h h' => le_trans h' h⟩

/-- `findBetterAlternatives`: candidate swaps for one held collateral asset,
keeping only candidates whose projected health factor stays at or above
`minSafeHF`, sorted by descending annual gain. -/
def findBetterAlternatives (asset : CollateralAsset) (pos : LendingPosition) :
    List CollateralRecommendation :=
  let currentAPY := currentAPYOf asset.symbol
  let protocolAssets := protocolCollateral pos.protocol
  let totalDebt := totalDebtUsd pos
  let totalCollateral := totalCollateralUsd pos
  let recommendations := assetRegistry.filterMap (fun entry =>
    if entry.1 = asset.symbol then none
    else
      match lookupEntry protocolAssets entry.1 with
      | none => none
      | some pConfig =>
        if !pConfig.accepted then none
        else if entry.2.effectiveAPY ≤ currentAPY then none
        else
          let currentLiqThreshold := pos.liquidationThreshold
          let newLiqThreshold := pConfig.liqThreshold
          let otherCollateralValue := totalCollateral - asset.valueUsd
          let weightedNewThreshold :=
            if totalCollateral > 0 then
              (otherCollateralValue * currentLiqThreshold + asset.valueUsd * newLiqThreshold)
                / totalCollateral
            else newLiqThreshold
          let projectedHF :=
            if totalDebt > 0 then totalCollateral * weightedNewThreshold / totalDebt else 999
          let yieldBoostAbsolute := entry.2.effectiveAPY - currentAPY
          some
            { fromAsset := asset.symbol
              fromAPY := currentAPY
              toAsset := entry.1
              toAPY := entry.2.effectiveAPY
              yieldBoostPercent :=
                if currentAPY > 0 then yieldBoostAbsolute / currentAPY * 100 else 0
              yieldBoostAbsolutePercent := yieldBoostAbsolute * 100
              annualGainUsd := asset.valueUsd * yieldBoostAbsolute
              healthImpact :=
                { currentHF := pos.healthFactor
                  projectedHF := projectedHF
                  safe := decide (projectedHF ≥ minSafeHF) }
              riskNote := decide (newLiqThreshold < currentLiqThreshold) })
  List.insertionSort gainGE
    (recommendations.filter (fun r => r.healthImpact.safe))

/-- `calculateCurrentYield`. -/
def calculateCurrentYield (pos : LendingPosition) : ℚ × ℚ × ℚ :=
  let totalCollateral := totalCollateralUsd pos
  if totalCollateral = 0 then (0, 0, 0)
  else
    let weightedSum :=
      (pos.collateral.map (fun a => currentAPYOf a.symbol * a.valueUsd)).sum
    (totalCollateral, weightedSum / totalCollateral, weightedSum)

/-- The per-symbol best swap chosen while building `calculateOptimizedYield`'s
map (strictly greater gain replaces). -/
def bestSwapFor (recs : List CollateralRecommendation) (sym : String) :
    Option CollateralRecommendation :=
  recs.foldl
    (fun acc r =>
      if r.fromAsset = sym then
        match acc with
        | none => some r
        | some e => if r.annualGainUsd > e.annualGainUsd then some r else some e
      else acc)
    none

/-- `calculateOptimizedYield`. -/
def calculateOptimizedYield (pos : LendingPosition)
    (recs : List CollateralRecommendation) : ℚ × ℚ :=
  let totalCollateral := totalCollateralUsd pos
  if totalCollateral = 0 then (0, 0)
  else
    let optimizedYieldSum :=
      (pos.collateral.map (fun a =>
        (match bestSwapFor recs a.symbol with
         | some swap => swap.toAPY
         | none => currentAPYOf a.symbol) * a.valueUsd)).sum
    (optimizedYieldSum / totalCollateral, optimizedYieldSum)

structure CollateralAnalysis where
  wallet : String
  protocol : Protocol
  currentYield : ℚ × ℚ × ℚ
  optimizedYield : ℚ × ℚ
  recommendations : List CollateralRecommendation
  totalBoostPercent : ℚ
  totalBoostUsd : ℚ

/-- `analyzePosition`: per-asset recommendations merged and sorted by
descending annual gain, with the current and optimized yield summaries. -/
def analyzePosition (pos : LendingPosition) : CollateralAnalysis :=
  let currentYield := calculateCurrentYield pos
  let recommendations :=
    List.insertionSort gainGE
      ((pos.collateral.map (fun a => findBetterAlternatives a pos)).flatten)
  let optimizedYield := calculateOptimizedYield pos recommendations
  { wallet := pos.wallet
    protocol := pos.protocol
    currentYield := currentYield
    optimizedYield := optimizedYield
    recommendations := recommendations
    totalBoostPercent :=
      if currentYield.2.1 > 0 then
        (optimizedYield.1 - currentYield.2.1) / currentYield.2.1 * 100
      else 0
    totalBoostUsd := optimizedYield.2 - currentYield.2.2 }

-- ─── Risk-engine history map (`healthHistory`, `clearHistory`) ─────

/-- Keys of the health-history map are the strings `wallet + ":" + protocol`,
modelled as character lists so that the JS prefix test can be reasoned
about. -/
def mkKey (wallet protocol : List Char) : List Char := wallet ++ ':' :: protocol

/-- JS `key.startsWith(pre)`. -/
def strStartsWith (s pre : List Char) : Bool := s.take pre.length == pre

/-- The `wallet:protocol → HealthSnapshot[]` map, as an association list. -/
abbrev HistMap := List (List Char × List HealthSnapshot)

/-- `clearHistory(wallet?)`: with a wallet argument, delete every key that
starts with that string; without one, clear the whole map. -/
def clearHistory (wallet : Option (List Char)) (m : HistMap) : HistMap :=
  match wallet with
  | some w => m.filter (fun kv => !(strStartsWith kv.1 w))
  | none => []

/-- Lookup in the health-history map (`this.healthHistory.get(key)`). -/
def lookupHistory : HistMap → List Char → Option (List HealthSnapshot)
  | [], _ => none
  | kv :: rest, k => if kv.1 = k then some kv.2 else lookupHistory rest k

-- ─── Concrete instances used by witnesses and counterexamples ──────

/-- A position already below the liquidation point. -/
def posA : LendingPosition :=
  { protocol := .kamino, wallet := "walletA", collateral := [], debt := [],
    healthFactor := 0.95, liquidationThreshold := 0.85 }

/-- A position with health factor in `[1.0, 1.05)`. -/
def posB : LendingPosition :=
  { protocol := .kamino, wallet := "walletA", collateral := [], debt := [],
    healthFactor := 1.02, liquidationThreshold := 0.85 }

/-- A position with health factor in `[1.05, 1.10)`. -/
def posC : LendingPosition :=
  { protocol := .kamino, wallet := "walletA", collateral := [], debt := [],
    healthFactor := 1.07, liquidationThreshold := 0.85 }

/-- A risk assessment at level `safe`. -/
def aSafe : RiskAssessment :=
  { wallet := "walletA", protocol := .kamino, riskLevel := .safe, riskScore := 0,
    healthFactor := 2, factors := [], recommendations := [] }

/-- A risk assessment at level `high`. -/
def aHigh : RiskAssessment :=
  { wallet := "walletA", protocol := .kamino, riskLevel := .high, riskScore := 70,
    healthFactor := 0.75, factors := [], recommendations := [] }

/-- $3000 collateral against $2000 debt at threshold 0.5: both a repay and an
add-collateral option are generated. -/
def posR : LendingPosition :=
  { protocol := .kamino, wallet := "walletA",
    collateral := [{ symbol := "SOL", amount := 20, valueUsd := 3000 }],
    debt := [{ symbol := "USDC", amount := 2000, valueUsd := 2000, interestRate := 0.08 }],
    healthFactor := 0.75, liquidationThreshold := 0.5 }

/-- The repay option `evaluateOptions` generates for `posR`. -/
def repayRec : ProtectionOption :=
  { action := .repay, protocol := .kamino, asset := "USDC", amount := 1000,
    amountUsd := 1000, resultingHF := 3/2, resultingDebtUsd := 1000,
    resultingCollateralUsd := 3000,
    yieldImpact :=
      { currentAPY := 1/40, projectedAPY := 11/200, yieldDeltaPercent := 120,
        annualizedCostUsd := -20 },
    capitalCostUsd := 1000, yieldCostAnnualUsd := -20, totalScoreUsd := 980,
    viable := true }

/-- The add-collateral option `evaluateOptions` generates for `posR`. -/
def addRec : ProtectionOption :=
  { action := .addCollateral, protocol := .kamino, asset := "SOL", amount := 3000,
    amountUsd := 3000, resultingHF := 3/2, resultingDebtUsd := 2000,
    resultingCollateralUsd := 6000,
    yieldImpact :=
      { currentAPY := 1/40, projectedAPY := 11/200, yieldDeltaPercent := 120,
        annualizedCostUsd := -195 },
    capitalCostUsd := 3000, yieldCostAnnualUsd := -195, totalScoreUsd := 2805,
    viable := true }

/-- $390000 collateral against $150000 debt at threshold 0.5: the repay and
add-collateral amounts both exceed the default $10000 budget, while the
unchecked unwind branch still fires with a $12000 repay leg. -/
def posU : LendingPosition :=
  { protocol := .kamino, wallet := "walletA",
    collateral := [{ symbol := "SOL", amount := 2600, valueUsd := 390000 }],
    debt := [{ symbol := "USDC", amount := 150000, valueUsd := 150000, interestRate := 0.08 }],
    healthFactor := 1.3, liquidationThreshold := 0.5 }

/-- The unwind option `evaluateOptions` generates for `posU`. -/
def unwindRecU : ProtectionOption :=
  { action := .unwind, protocol := .kamino, asset := "POSITION", amount := 12000,
    amountUsd := 12000, resultingHF := 317/230, resultingDebtUsd := 138000,
    resultingCollateralUsd := 380400,
    yieldImpact :=
      { currentAPY := 21/400, projectedAPY := 1083/20200, yieldDeltaPercent := 1500/707,
        annualizedCostUsd := -396 },
    capitalCostUsd := 0, yieldCostAnnualUsd := -396, totalScoreUsd := -396,
    viable := true }

/-- A JitoSOL-collateralized position for which the analyzer recommends
exactly one swap (to INF). -/
def posY : LendingPosition :=
  { protocol := .kamino, wallet := "walletA",
    collateral := [{ symbol := "JitoSOL", amount := 50, valueUsd := 10000 }],
    debt := [{ symbol := "USDC", amount := 1000, valueUsd := 1000, interestRate := 0.08 }],
    healthFactor := 8.5, liquidationThreshold := 0.85 }

/-- The single recommendation `analyzePosition` produces for `posY`. -/
def recINF : CollateralRecommendation :=
  { fromAsset := "JitoSOL", fromAPY := 108/1000, toAsset := "INF", toAPY := 114/1000,
    yieldBoostPercent := 50/9, yieldBoostAbsolutePercent := 3/5, annualGainUsd := 60,
    healthImpact := { currentHF := 17/2, projectedHF := 15/2, safe := true },
    riskNote := true }

/-- The default protection config with the `speed-optimized` strategy. -/
def cfgSpeed : ProtectionEngineConfig :=
  { defaultProtectionConfig with preferredStrategy := .speedOptimized }

/-- The default protection config with dry-run disabled. -/
def cfgExec : ProtectionEngineConfig :=
  { defaultProtectionConfig with dryRun := false }

/-- A position at health factor 1.2; `posP2` is the same position at 1.3. -/
def posP1 : LendingPosition :=
  { protocol := .kamino, wallet := "walletA",
    collateral := [{ symbol := "SOL", amount := 16, valueUsd := 2400 }],
    debt := [{ symbol := "USDC", amount := 1000, valueUsd := 1000, interestRate := 0.08 }],
    healthFactor := 1.2, liquidationThreshold := 0.5 }

/-- `posP1` with the health factor raised to 1.3. -/
def posP2 : LendingPosition :=
  { posP1 with healthFactor := 1.3 }

-- ═══ Lemmas and claim theorems ═════════════════════════════════════

theorem jsRound_mono {a b : ℚ} (h : a ≤ b) : jsRound a ≤ jsRound b := by
  unfold jsRound
  exact_mod_cast Int.floor_le_floor (by linarith)

/-- The composite score is capped at 100 before the floor overrides. -/
theorem compositeScore_le (factors : List RiskFactor) : compositeScore factors ≤ 100 :=
  min_le_left _ _

theorem applyFloorOverride_of_le_one {hf s : ℚ} (h : hf ≤ 1) (hs : s ≤ 100) :
    applyFloorOverride hf s = 100 := by
  unfold applyFloorOverride
  rw [if_pos (by norm_num; exact h)]
  exact max_eq_right hs

theorem applyFloorOverride_ge_85 {hf s : ℚ} (h0 : 1 ≤ hf) (h : hf < 1.05) :
    85 ≤ applyFloorOverride hf s := by
  unfold applyFloorOverride
  split_ifs with h1
  · exact le_trans (by norm_num) (le_max_right s 100)
  · exact le_max_right s 85

theorem applyFloorOverride_ge_70 {hf s : ℚ} (h0 : 1.05 ≤ hf) (h : hf < 1.1) :
    70 ≤ applyFloorOverride hf s := by
  unfold applyFloorOverride
  split_ifs with h1 h2
  · exact le_trans (by norm_num) (le_max_right s 100)
  · exact le_trans (by norm_num) (le_max_right s 85)
  · exact le_max_right s 70

theorem assessPosition_riskScore (cfg : RiskEngineConfig) (hist : List HealthSnapshot)
    (now : ℚ) (pos : LendingPosition) :
    (assessPosition cfg hist now pos).riskScore =
      applyFloorOverride pos.healthFactor
        (compositeScore (riskFactors cfg
          (recordSnapshot cfg hist { healthFactor := pos.healthFactor, timestamp := now }) pos)) :=
  rfl

theorem assessPosition_riskLevel (cfg : RiskEngineConfig) (hist : List HealthSnapshot)
    (now : ℚ) (pos : LendingPosition) :
    (assessPosition cfg hist now pos).riskLevel =
      scoreToLevel (assessPosition cfg hist now pos).riskScore :=
  rfl

/-- C1: for every position with `healthFactor ≤ 1.0`, `assessPosition` returns
risk score exactly 100 and level `critical`; for `healthFactor` in
`[1.0, 1.05)` the composite risk score is at least 85, and for
`[1.05, 1.10)` at least 70, regardless of the values of the other risk
factors (utilization, concentration, trend, protocol risk). -/
theorem assessPosition_floor_overrides (cfg : RiskEngineConfig)
    (hist : List HealthSnapshot) (now : ℚ) (pos : LendingPosition) :
    (pos.healthFactor ≤ 1 →
      (assessPosition cfg hist now pos).riskScore = 100 ∧
      (assessPosition cfg hist now pos).riskLevel = .critical) ∧
    (1 ≤ pos.healthFactor → pos.healthFactor < 1.05 →
      85 ≤ (assessPosition cfg hist now pos).riskScore) ∧
    (1.05 ≤ pos.healthFactor → pos.healthFactor < 1.1 →
      70 ≤ (assessPosition cfg hist now pos).riskScore) := by
  rw [assessPosition_riskLevel, assessPosition_riskScore]
  refine ⟨fun h1 => ?_, fun h1 h2 => ?_, fun h1 h2 => ?_⟩
  · rw [applyFloorOverride_of_le_one h1 (compositeScore_le _)]
    exact ⟨rfl, by unfold scoreToLevel; norm_num⟩
  · exact applyFloorOverride_ge_85 h1 h2
  · exact applyFloorOverride_ge_70 h1 h2

theorem assessPosition_floor_overrides_witness :
    (posA.healthFactor ≤ 1 ∧
      (assessPosition defaultRiskConfig [] 0 posA).riskScore = 100 ∧
      (assessPosition defaultRiskConfig [] 0 posA).riskLevel = .critical) ∧
    (1 ≤ posB.healthFactor ∧ posB.healthFactor < 1.05 ∧
      85 ≤ (assessPosition defaultRiskConfig [] 0 posB).riskScore) ∧
    (1.05 ≤ posC.healthFactor ∧ posC.healthFactor < 1.1 ∧
      70 ≤ (assessPosition defaultRiskConfig [] 0 posC).riskScore) := by
  refine ⟨⟨by norm_num [posA], (assessPosition_floor_overrides defaultRiskConfig [] 0 posA).1 (by norm_num [posA])⟩,
    ⟨by norm_num [posB], by norm_num [posB], (assessPosition_floor_overrides defaultRiskConfig [] 0 posB).2.1 (by norm_num [posB]) (by norm_num [posB])⟩,
    ⟨by norm_num [posC], by norm_num [posC], (assessPosition_floor_overrides defaultRiskConfig [] 0 posC).2.2 (by norm_num [posC]) (by norm_num [posC])⟩⟩

/-- C5: `evaluateOptions` returns the empty list whenever the assessment's
risk level is `safe` or `low`. -/
theorem evaluateOptions_safe_low (cfg : ProtectionEngineConfig) (pos : LendingPosition)
    (assessment : RiskAssessment)
    (h : assessment.riskLevel = .safe ∨ assessment.riskLevel = .low) :
    evaluateOptions cfg pos assessment = [] := by
  unfold evaluateOptions
  rw [if_pos h]

theorem evaluateOptions_safe_low_witness :
    (aSafe.riskLevel = .safe ∨ aSafe.riskLevel = .low) ∧
      evaluateOptions defaultProtectionConfig posR aSafe = [] :=
  ⟨Or.inl rfl, evaluateOptions_safe_low defaultProtectionConfig posR aSafe (Or.inl rfl)⟩

/-- C2: every `CollateralRecommendation` in the output of `analyzePosition`
has `healthImpact.safe = true`: no candidate whose projected health factor
falls below the fixed safety floor 1.25 ever appears in the returned
recommendation list. -/
theorem analyzePosition_recommendations_safe (pos : LendingPosition) :
    ∀ r ∈ (analyzePosition pos).recommendations, r.healthImpact.safe = true := by
  intro r hr
  have hr' : r ∈ (pos.collateral.map (fun a => findBetterAlternatives a pos)).flatten := by
    simpa [analyzePosition, List.mem_insertionSort] using hr
  obtain ⟨l, hl, hrl⟩ := List.mem_flatten.mp hr'
  obtain ⟨a, _, rfl⟩ := List.mem_map.mp hl
  unfold findBetterAlternatives at hrl
  rw [List.mem_insertionSort] at hrl
  exact (List.mem_filter.mp hrl).2

theorem lookupEntry_INF_kamino :
    lookupEntry (protocolCollateral .kamino) "INF" = some ⟨true, 0.75⟩ := by
  simp [protocolCollateral, lookupEntry]

theorem currentAPYOf_jito : currentAPYOf "JitoSOL" = 0.108 := by
  simp [currentAPYOf, resolveAssetProfile, lookupEntry, assetRegistry]

theorem totalCollateralUsd_posY : totalCollateralUsd posY = 10000 := by
  simp [totalCollateralUsd, posY]

theorem totalDebtUsd_posY : totalDebtUsd posY = 1000 := by
  simp [totalDebtUsd, posY]

theorem recINF_mem_findBetter :
    recINF ∈ findBetterAlternatives { symbol := "JitoSOL", amount := 50, valueUsd := 10000 } posY := by
  unfold findBetterAlternatives
  rw [List.mem_insertionSort]
  apply List.mem_filter.mpr
  refine ⟨List.mem_filterMap.mpr
    ⟨("INF", ({ symbol := "INF", supplyAPY := 0.032, stakingAPY := 0.082, effectiveAPY := 0.114, isLST := true } : AssetProfileBase)),
      by simp [assetRegistry], ?_⟩, by simp [recINF]⟩
  rw [totalCollateralUsd_posY, totalDebtUsd_posY]
  simp only [currentAPYOf_jito, show posY.protocol = .kamino from rfl,
    show posY.liquidationThreshold = 0.85 from rfl,
    show posY.healthFactor = 8.5 from rfl, lookupEntry_INF_kamino]
  rw [if_neg (by decide : ¬("INF" = "JitoSOL"))]
  norm_num [recINF, minSafeHF, decide_eq_true_eq]

theorem recINF_mem : recINF ∈ (analyzePosition posY).recommendations := by
  simp only [analyzePosition]
  rw [List.mem_insertionSort, List.mem_flatten]
  exact ⟨_, List.mem_map_of_mem _
    (show ({ symbol := "JitoSOL", amount := 50, valueUsd := 10000 } : CollateralAsset)
        ∈ posY.collateral by simp [posY]),
    recINF_mem_findBetter⟩

theorem analyzePosition_recommendations_safe_witness :
    recINF ∈ (analyzePosition posY).recommendations ∧ recINF.healthImpact.safe = true :=
  ⟨recINF_mem, analyzePosition_recommendations_safe posY recINF recINF_mem⟩

/-- C10: `clearHistory(wallet)` deletes the history of every key
`wallet:protocol` that starts with the given wallet string — including any
distinct wallet whose address extends the given string as a prefix — and
leaves every other key's history unchanged; `clearHistory()` with no
argument removes all histories. -/
theorem clearHistory_prefix_semantics :
    (∀ (m : HistMap) (w w' p : List Char),
      lookupHistory (clearHistory (some w) m) (mkKey w' p) =
        if strStartsWith (mkKey w' p) w then none
        else lookupHistory m (mkKey w' p)) ∧
    (∀ (w ext p : List Char), strStartsWith (mkKey (w ++ ext) p) w = true) ∧
    (∀ m : HistMap, clearHistory none m = []) := by
  refine ⟨?_, ?_, fun m => rfl⟩
  · intro m w w' p
    induction m with
    | nil =>
      simp [clearHistory, lookupHistory]
    | cons kv rest ih =>
      simp only [clearHistory] at ih ⊢
      rw [List.filter_cons]
      by_cases hb : strStartsWith kv.1 w = true
      · rw [show (!strStartsWith kv.1 w) = false by simp [hb], if_neg Bool.false_ne_true, ih]
        by_cases hk : kv.1 = mkKey w' p
        · rw [← hk, hb]
          simp
        · by_cases hs : strStartsWith (mkKey w' p) w = true
          · simp [hs]
          · simp only [Bool.not_eq_true] at hs
            simp [hs, lookupHistory, hk]
      · simp only [Bool.not_eq_true] at hb
        rw [show (!strStartsWith kv.1 w) = true by simp [hb], if_pos rfl]
        by_cases hk : kv.1 = mkKey w' p
        · rw [← hk, hb]
          simp [lookupHistory]
        · simp only [lookupHistory, hk, if_false, ih]
  · intro w ext p
    unfold strStartsWith mkKey
    rw [List.append_assoc, List.take_left]
    exact beq_self_eq_true w

theorem mem_rankOptions {cfg : ProtectionEngineConfig} {l : List ProtectionOption}
    {o : ProtectionOption} : o ∈ rankOptions cfg l ↔ o ∈ l := by
  rcases hS : cfg.preferredStrategy <;> simp [rankOptions, hS]

theorem mem_evaluateOptions {cfg : ProtectionEngineConfig} {pos : LendingPosition}
    {a : RiskAssessment} {o : ProtectionOption}
    (h : ¬(a.riskLevel = .safe ∨ a.riskLevel = .low)) :
    o ∈ evaluateOptions cfg pos a ↔ o ∈ candidateOptions cfg pos := by
  unfold evaluateOptions
  rw [if_neg h, mem_rankOptions]

theorem mem_candidateOptions {cfg : ProtectionEngineConfig} {pos : LendingPosition}
    {a : RiskAssessment} {o : ProtectionOption} (ho : o ∈ evaluateOptions cfg pos a) :
    o ∈ repayOptions cfg pos ∨ o ∈ addCollateralOptions cfg pos ∨ o ∈ unwindOptions cfg pos := by
  unfold evaluateOptions at ho
  split_ifs at ho with h
  · exact absurd ho (List.not_mem_nil o)
  · simpa [candidateOptions, List.mem_append, or_assoc] using mem_rankOptions.mp ho

theorem totalCollateralUsd_posU : totalCollateralUsd posU = 390000 := by
  simp [totalCollateralUsd, posU]

theorem totalDebtUsd_posU : totalDebtUsd posU = 150000 := by
  simp [totalDebtUsd, posU]

theorem repayAmountOf_posU : repayAmountOf defaultProtectionConfig posU = 20000 := by
  unfold repayAmountOf
  rw [totalCollateralUsd_posU, totalDebtUsd_posU]
  norm_num [defaultProtectionConfig, show posU.liquidationThreshold = 0.5 from rfl, max_def]

theorem unwindOptions_posU :
    unwindOptions defaultProtectionConfig posU = [unwindRecU] := by
  simp only [unwindOptions]
  rw [totalCollateralUsd_posU, totalDebtUsd_posU, repayAmountOf_posU,
    show posU.liquidationThreshold = 0.5 from rfl]
  norm_num [unwindRecU, mkYieldImpact, calculateEffectiveAPY, getYields,
    defaultProtectionConfig, defaultYieldRates, show posU.protocol = Protocol.kamino from rfl,
    abs_of_pos, decide_eq_true_eq]

theorem unwindRecU_mem : unwindRecU ∈ evaluateOptions defaultProtectionConfig posU aHigh := by
  rw [mem_evaluateOptions (by simp [aHigh])]
  unfold candidateOptions
  exact List.mem_append_right _ (by rw [unwindOptions_posU]; exact List.mem_singleton_self _)

/-- C3 counterexample: on a large position the unwind branch, which performs
no budget check, emits an option whose amount exceeds the configured
`maxProtectionUsd` of 10000. -/
theorem evaluateOptions_budget_ctrex :
    ∃ o ∈ evaluateOptions defaultProtectionConfig posU aHigh,
      defaultProtectionConfig.maxProtectionUsd < o.amount :=
  ⟨unwindRecU, unwindRecU_mem, by norm_num [unwindRecU, defaultProtectionConfig]⟩

/-- C3 amended: every `ProtectionOption` returned by `evaluateOptions` has a
strictly positive amount, and the repay and add-collateral options never
exceed the configured `maxProtectionUsd` budget; the unwind branch performs
no budget check. -/
theorem evaluateOptions_amount_bounds (cfg : ProtectionEngineConfig)
    (pos : LendingPosition) (a : RiskAssessment) :
    ∀ o ∈ evaluateOptions cfg pos a,
      0 < o.amount ∧
      ((o.action = .repay ∨ o.action = .addCollateral) →
        o.amount ≤ cfg.maxProtectionUsd) := by
  intro o ho
  rcases mem_candidateOptions ho with hR | hA | hU
  · simp only [repayOptions] at hR
    split_ifs at hR with h h2
    · rcases List.mem_singleton.mp hR with rfl
      exact ⟨h.1, fun _ => h.2⟩
    · rcases List.mem_singleton.mp hR with rfl
      exact ⟨h.1, fun _ => h.2⟩
    · exact absurd hR (List.not_mem_nil o)
  · simp only [addCollateralOptions] at hA
    split_ifs at hA with h h2
    · rcases List.mem_singleton.mp hA with rfl
      exact ⟨h.1, fun _ => h.2⟩
    · rcases List.mem_singleton.mp hA with rfl
      exact ⟨h.1, fun _ => h.2⟩
    · exact absurd hA (List.not_mem_nil o)
  · simp only [unwindOptions] at hU
    split_ifs at hU with h1 h2 h3
    · rcases List.mem_singleton.mp hU with rfl
      refine ⟨h2.1, ?_⟩
      rintro (habs | habs) <;> exact PAction.noConfusion habs
    all_goals exact absurd hU (List.not_mem_nil o)

theorem evaluateOptions_amount_bounds_witness :
    unwindRecU ∈ evaluateOptions defaultProtectionConfig posU aHigh ∧
    0 < unwindRecU.amount ∧
    ((unwindRecU.action = .repay ∨ unwindRecU.action = .addCollateral) →
      unwindRecU.amount ≤ defaultProtectionConfig.maxProtectionUsd) :=
  ⟨unwindRecU_mem,
    evaluateOptions_amount_bounds defaultProtectionConfig posU aHigh unwindRecU unwindRecU_mem⟩

theorem totalCollateralUsd_posR : totalCollateralUsd posR = 3000 := by
  simp [totalCollateralUsd, posR]

theorem totalDebtUsd_posR : totalDebtUsd posR = 2000 := by
  simp [totalDebtUsd, posR]

theorem repayAmountOf_posR : repayAmountOf defaultProtectionConfig posR = 1000 := by
  unfold repayAmountOf
  rw [totalCollateralUsd_posR, totalDebtUsd_posR]
  norm_num [defaultProtectionConfig, show posR.liquidationThreshold = 0.5 from rfl, max_def]

theorem repayOptions_posR :
    repayOptions defaultProtectionConfig posR = [repayRec] := by
  simp only [repayOptions]
  rw [totalCollateralUsd_posR, totalDebtUsd_posR, repayAmountOf_posR,
    show posR.liquidationThreshold = 0.5 from rfl,
    show headDebtSymbol posR = "USDC" from by simp [headDebtSymbol, posR, jsOrStr]]
  norm_num [repayRec, mkYieldImpact, calculateEffectiveAPY, getYields,
    defaultProtectionConfig, defaultYieldRates, show posR.protocol = Protocol.kamino from rfl,
    abs_of_pos, decide_eq_true_eq]

theorem repayRec_mem : repayRec ∈ evaluateOptions defaultProtectionConfig posR aHigh := by
  rw [mem_evaluateOptions (by simp [aHigh])]
  unfold candidateOptions
  exact List.mem_append_left _ (List.mem_append_left _
    (by rw [repayOptions_posR]; exact List.mem_singleton_self _))

/-- C4: for every repay option produced by `evaluateOptions` (on a position
with positive collateral and threshold, and a positive target health
factor), the option's amount is `debt - collateral·threshold/targetHF` and
its `resultingHF` field equals the health factor recomputed as
`collateral·threshold / (debt - amount)` — exactly, in the rational model
of the floating-point computation. -/
theorem repay_option_recompute_HF (cfg : ProtectionEngineConfig)
    (pos : LendingPosition) (a : RiskAssessment)
    (hC : 0 < totalCollateralUsd pos) (ht : 0 < pos.liquidationThreshold)
    (htgt : 0 < cfg.targetHealthFactor) :
    ∀ o ∈ evaluateOptions cfg pos a, o.action = .repay →
      o.amount = totalDebtUsd pos -
        totalCollateralUsd pos * pos.liquidationThreshold / cfg.targetHealthFactor ∧
      o.resultingHF = totalCollateralUsd pos * pos.liquidationThreshold /
        (totalDebtUsd pos - o.amount) := by
  intro o ho hact
  rcases mem_candidateOptions ho with hR | hA | hU
  · simp only [repayOptions] at hR
    split_ifs at hR with h h2
    · rcases List.mem_singleton.mp hR with rfl
      have hx : 0 < totalDebtUsd pos -
          totalCollateralUsd pos * pos.liquidationThreshold / cfg.targetHealthFactor := by
        rcases lt_max_iff.mp h.1 with habs | hpos
        · exact absurd habs (lt_irrefl 0)
        · exact hpos
      have hamt : repayAmountOf cfg pos = totalDebtUsd pos -
          totalCollateralUsd pos * pos.liquidationThreshold / cfg.targetHealthFactor :=
        max_eq_right hx.le
      exact ⟨hamt, rfl⟩
    · rcases List.mem_singleton.mp hR with rfl
      have hx : 0 < totalDebtUsd pos -
          totalCollateralUsd pos * pos.liquidationThreshold / cfg.targetHealthFactor := by
        rcases lt_max_iff.mp h.1 with habs | hpos
        · exact absurd habs (lt_irrefl 0)
        · exact hpos
      have hnd : 0 < totalDebtUsd pos - repayAmountOf cfg pos := by
        have h3 : 0 < totalCollateralUsd pos * pos.liquidationThreshold /
            cfg.targetHealthFactor := div_pos (mul_pos hC ht) htgt
        rw [show repayAmountOf cfg pos = totalDebtUsd pos -
          totalCollateralUsd pos * pos.liquidationThreshold / cfg.targetHealthFactor from
          max_eq_right hx.le]
        linarith
      exact absurd ⟨hC, hnd⟩ h2
    · exact absurd hR (List.not_mem_nil o)
  · simp only [addCollateralOptions] at hA
    split_ifs at hA with h h2 <;>
      first
      | (rcases List.mem_singleton.mp hA with rfl; exact PAction.noConfusion hact)
      | exact absurd hA (List.not_mem_nil o)
  · simp only [unwindOptions] at hU
    split_ifs at hU with h1 h2 h3 <;>
      first
      | (rcases List.mem_singleton.mp hU with rfl; exact PAction.noConfusion hact)
      | exact absurd hU (List.not_mem_nil o)

theorem repay_option_recompute_HF_witness :
    0 < totalCollateralUsd posR ∧ 0 < posR.liquidationThreshold ∧
    0 < defaultProtectionConfig.targetHealthFactor ∧
    repayRec ∈ evaluateOptions defaultProtectionConfig posR aHigh ∧
    repayRec.action = .repay ∧
    (repayRec.amount = totalDebtUsd posR -
      totalCollateralUsd posR * posR.liquidationThreshold /
        defaultProtectionConfig.targetHealthFactor ∧
     repayRec.resultingHF = totalCollateralUsd posR * posR.liquidationThreshold /
      (totalDebtUsd posR - repayRec.amount)) :=
  ⟨by rw [totalCollateralUsd_posR]; norm_num,
   by norm_num [posR],
   by norm_num [defaultProtectionConfig],
   repayRec_mem, rfl,
   repay_option_recompute_HF defaultProtectionConfig posR aHigh
     (by rw [totalCollateralUsd_posR]; norm_num)
     (by norm_num [posR]) (by norm_num [defaultProtectionConfig])
     repayRec repayRec_mem rfl⟩

/-- C7: under the `yield-optimized` strategy the option list returned by
`evaluateOptions` is ordered by ascending `yieldCostAnnualUsd` (an option
with strictly smaller yield cost never appears after one with a strictly
larger one); under `speed-optimized` the first option of a non-empty result
has the maximal `resultingHF` among all returned options. -/
theorem evaluateOptions_ranking_laws (cfg : ProtectionEngineConfig)
    (pos : LendingPosition) (a : RiskAssessment) :
    (cfg.preferredStrategy = .yieldOptimized →
      (evaluateOptions cfg pos a).Pairwise yieldLE) ∧
    (cfg.preferredStrategy = .speedOptimized →
      ∀ o ∈ evaluateOptions cfg pos a,
        o.resultingHF ≤
          ((evaluateOptions cfg pos a).headD (noOpOption pos)).resultingHF) := by
  constructor
  · intro hS
    unfold evaluateOptions
    split_ifs
    · exact List.Pairwise.nil
    · simp only [rankOptions, hS]
      exact List.sorted_insertionSort yieldLE _
  · intro hS o ho
    have hsorted : List.Sorted speedLE (evaluateOptions cfg pos a) := by
      unfold evaluateOptions
      split_ifs
      · exact List.sorted_nil
      · simp only [rankOptions, hS]
        exact List.sorted_insertionSort speedLE _
    rcases hL : evaluateOptions cfg pos a with _ | ⟨b, rest⟩
    · rw [hL] at ho
      exact absurd ho (List.not_mem_nil o)
    · rw [hL] at ho hsorted
      rw [List.headD_cons]
      rcases List.mem_cons.mp ho with rfl | hmem
      · exact le_rfl
      · exact List.rel_of_sorted_cons hsorted o hmem

theorem repayRec_mem_speed : repayRec ∈ evaluateOptions cfgSpeed posR aHigh := by
  rw [mem_evaluateOptions (by simp [aHigh])]
  unfold candidateOptions
  refine List.mem_append_left _ (List.mem_append_left _ ?_)
  rw [show repayOptions cfgSpeed posR = repayOptions defaultProtectionConfig posR from rfl,
    repayOptions_posR]
  exact List.mem_singleton_self _

theorem evaluateOptions_ranking_laws_witness :
    (defaultProtectionConfig.preferredStrategy = .yieldOptimized ∧
      (evaluateOptions defaultProtectionConfig posR aHigh).Pairwise yieldLE) ∧
    (cfgSpeed.preferredStrategy = .speedOptimized ∧
      repayRec ∈ evaluateOptions cfgSpeed posR aHigh ∧
      repayRec.resultingHF ≤
        ((evaluateOptions cfgSpeed posR aHigh).headD (noOpOption posR)).resultingHF) :=
  ⟨⟨rfl, (evaluateOptions_ranking_laws defaultProtectionConfig posR aHigh).1 rfl⟩,
   ⟨rfl, repayRec_mem_speed,
    (evaluateOptions_ranking_laws cfgSpeed posR aHigh).2 rfl repayRec repayRec_mem_speed⟩⟩

theorem evalOptions_nil_of_safe_or_low (cfg : ProtectionEngineConfig)
    (pos : LendingPosition) (a : RiskAssessment)
    (h : a.riskLevel = .safe ∨ a.riskLevel = .low) :
    evaluateOptions cfg pos a = [] := by
  unfold evaluateOptions
  rw [if_pos h]

theorem repayRec_mem_exec : repayRec ∈ evaluateOptions cfgExec posR aHigh := by
  rw [mem_evaluateOptions (by simp [aHigh])]
  unfold candidateOptions
  refine List.mem_append_left _ (List.mem_append_left _ ?_)
  rw [show repayOptions cfgExec posR = repayOptions defaultProtectionConfig posR from rfl,
    repayOptions_posR]
  exact List.mem_singleton_self _

/-- C6 counterexample: with dry-run configured, a `protect` call that finds
no viable options returns `success = false`, so dry-run calls do not always
return a success result as the claim states. -/
theorem protect_dry_run_ctrex :
    defaultProtectionConfig.dryRun = true ∧
    (protect defaultProtectionConfig posR aSafe true (.ok "sig") []).result.success = false := by
  refine ⟨rfl, ?_⟩
  unfold protect
  rw [if_pos (by rw [evalOptions_nil_of_safe_or_low _ _ _ (Or.inl rfl)]; rfl)]

/-- C6 amended: `protect` never propagates an error raised while building or
submitting the transaction — any such error becomes a normally returned
result with `success = false` and the error message; when dry-run is
configured or no signer keypair is supplied and at least one option exists,
it returns a success result flagged dry-run with no external action; and
when no viable option exists it returns a failure result with no external
action. -/
theorem protect_error_handling (cfg : ProtectionEngineConfig) (pos : LendingPosition)
    (a : RiskAssessment) (hasSigner : Bool) (submit : Except String String)
    (log : List ProtectionResult) :
    (∀ msg, submit = .error msg → evaluateOptions cfg pos a ≠ [] →
      cfg.dryRun = false → hasSigner = true →
      (protect cfg pos a hasSigner submit log).result.success = false ∧
      (protect cfg pos a hasSigner submit log).result.errorMsg = some msg) ∧
    ((cfg.dryRun = true ∨ hasSigner = false) → evaluateOptions cfg pos a ≠ [] →
      (protect cfg pos a hasSigner submit log).result.success = true ∧
      (protect cfg pos a hasSigner submit log).result.dryRun = true ∧
      (protect cfg pos a hasSigner submit log).externalAction = false) ∧
    (evaluateOptions cfg pos a = [] →
      (protect cfg pos a hasSigner submit log).result.success = false ∧
      (protect cfg pos a hasSigner submit log).externalAction = false) := by
  refine ⟨?_, ?_, ?_⟩
  · rintro msg rfl hne hdf hs
    unfold protect
    rw [if_neg fun h0 => hne (List.length_eq_zero.mp h0),
      if_neg (by simp [hdf, hs])]
    exact ⟨rfl, rfl⟩
  · intro hdry hne
    unfold protect
    rw [if_neg fun h0 => hne (List.length_eq_zero.mp h0), if_pos hdry]
    exact ⟨rfl, rfl, rfl⟩
  · intro hnil
    unfold protect
    rw [if_pos (by rw [hnil]; rfl)]
    exact ⟨rfl, rfl⟩

theorem protect_error_handling_witness :
    (protect cfgExec posR aHigh true (.error "node down") []).result.success = false ∧
    (protect cfgExec posR aHigh true (.error "node down") []).result.errorMsg =
      some "node down" :=
  (protect_error_handling cfgExec posR aHigh true (.error "node down") []).1
    "node down" rfl (List.ne_nil_of_mem repayRec_mem_exec) rfl rfl

/-- C9 counterexample: a `protect` call that finds no viable options appends
nothing to the execution log, so the log does not receive exactly one entry
per call. -/
theorem protect_log_ctrex :
    (protect defaultProtectionConfig posR aSafe true (.ok "sig") []).log = [] := by
  unfold protect
  rw [if_pos (by rw [evalOptions_nil_of_safe_or_low _ _ _ (Or.inl rfl)]; rfl)]

/-- C9 amended: the execution log is append-only — each `protect` call
leaves the existing entries untouched and appends exactly one
`ProtectionResult` when at least one viable option exists, and appends
nothing when no viable option exists. -/
theorem protect_log_append (cfg : ProtectionEngineConfig) (pos : LendingPosition)
    (a : RiskAssessment) (hasSigner : Bool) (submit : Except String String)
    (log : List ProtectionResult) :
    (∃ t, (protect cfg pos a hasSigner submit log).log = log ++ t) ∧
    (evaluateOptions cfg pos a ≠ [] →
      (protect cfg pos a hasSigner submit log).log =
        log ++ [(protect cfg pos a hasSigner submit log).result]) ∧
    (evaluateOptions cfg pos a = [] →
      (protect cfg pos a hasSigner submit log).log = log) := by
  unfold protect
  by_cases hnil : (evaluateOptions cfg pos a).length = 0
  · rw [if_pos hnil]
    exact ⟨⟨[], (List.append_nil log).symm⟩,
      fun hne => absurd (List.length_eq_zero.mp hnil) hne, fun _ => rfl⟩
  · rw [if_neg hnil]
    have hne' : ∀ h0 : evaluateOptions cfg pos a = [], False :=
      fun h0 => hnil (by rw [h0]; rfl)
    split_ifs with hdry
    · exact ⟨⟨_, rfl⟩, fun _ => rfl, fun h => absurd h (fun h0 => hne' h0)⟩
    · cases submit with
      | ok sig => exact ⟨⟨_, rfl⟩, fun _ => rfl, fun h => absurd h (fun h0 => hne' h0)⟩
      | error msg => exact ⟨⟨_, rfl⟩, fun _ => rfl, fun h => absurd h (fun h0 => hne' h0)⟩

theorem protect_log_append_witness :
    (protect defaultProtectionConfig posR aHigh true (.ok "sig") []).log =
      [] ++ [(protect defaultProtectionConfig posR aHigh true (.ok "sig") []).result] :=
  (protect_log_append defaultProtectionConfig posR aHigh true (.ok "sig") []).2.1
    (List.ne_nil_of_mem repayRec_mem)

theorem jsSliceLast_concat (w : ℕ) (l : List α) (s : α) :
    jsSliceLast w (l ++ [s]) =
      (if w = 0 then l else l.drop (l.length + 1 - w)) ++ [s] := by
  unfold jsSliceLast
  split_ifs with h0
  · rfl
  · rw [List.length_append, List.length_cons, List.length_nil,
      List.drop_append_of_le_length (by omega)]

theorem recordSnapshot_shape (cfg : RiskEngineConfig) (hist : List HealthSnapshot)
    (now : ℚ) (x : ℚ) :
    recordSnapshot cfg hist { healthFactor := x, timestamp := now } =
      (if hist.length + 1 > cfg.trendWindowSize * 2 then
        (if cfg.trendWindowSize = 0 then hist
         else hist.drop (hist.length + 1 - cfg.trendWindowSize))
       else hist) ++ [{ healthFactor := x, timestamp := now }] := by
  have hlen : (hist ++ [({ healthFactor := x, timestamp := now } : HealthSnapshot)]).length =
      hist.length + 1 := by simp
  simp only [recordSnapshot]
  by_cases hc : hist.length + 1 > cfg.trendWindowSize * 2
  · rw [if_pos (by rw [hlen]; exact hc), if_pos hc, jsSliceLast_concat]
  · rw [if_neg (by rw [hlen]; exact hc), if_neg hc]

theorem getLastD_single (x d : HealthSnapshot) : List.getLastD [x] d = x := rfl

theorem trendVelocityScore_anti {u v : ℚ} (h : u ≤ v) :
    trendVelocityScore v ≤ trendVelocityScore u := by
  unfold trendVelocityScore
  split_ifs <;>
    first
    | linarith
    | exact max_le_max le_rfl (by linarith)
    | exact max_le (by norm_num) (by linarith)

theorem assessTrend_recorded_anti (cfg : RiskEngineConfig) (hist : List HealthSnapshot)
    (now : ℚ) {a b : ℚ} (hab : a ≤ b) :
    (assessTrend cfg (recordSnapshot cfg hist { healthFactor := b, timestamp := now })).score ≤
    (assessTrend cfg (recordSnapshot cfg hist { healthFactor := a, timestamp := now })).score := by
  rw [recordSnapshot_shape, recordSnapshot_shape]
  set P := (if hist.length + 1 > cfg.trendWindowSize * 2 then
    (if cfg.trendWindowSize = 0 then hist
     else hist.drop (hist.length + 1 - cfg.trendWindowSize))
   else hist) with hP
  unfold assessTrend
  simp only [List.length_append, List.length_cons, List.length_nil, jsSliceLast_concat]
  set P2 := (if cfg.trendWindowSize = 0 then P
    else P.drop (P.length + 1 - cfg.trendWindowSize)) with hP2
  rcases hP2c : P2 with _ | ⟨y, t⟩
  · simp only [List.nil_append, getLastD_single, List.headD_cons, sub_self]
    exact le_rfl
  · simp only [List.getLastD_concat]
    simp only [List.cons_append, List.headD_cons]

    split_ifs with h1 h2
    · exact le_rfl
    · exact le_rfl
    · have hpos : (0:ℚ) < (now - y.timestamp) / 60000 := by
        have hge := not_lt.mp h2
        norm_num at hge ⊢
        linarith
      exact jsRound_mono (min_le_min le_rfl
        (trendVelocityScore_anti ((div_le_div_iff_of_pos_right hpos).mpr (by linarith))))

theorem hfRaw_eq_100 (th : Thresholds) {x : ℚ} (hx : x ≤ 1) : hfRaw th x = 100 := by
  unfold hfRaw
  rw [if_pos hx]

theorem hfRaw_eval_b2 (th : Thresholds) {x : ℚ} (ha : 1 < x) (hb : x < th.high) :
    hfRaw th x = 90 + (1 - (x - 1) / (th.high - 1)) * 10 := by
  unfold hfRaw
  rw [if_neg (not_le.mpr ha), if_pos hb]

theorem hfRaw_eval_b3 (th : Thresholds) (hth : ThOrdered th) {x : ℚ}
    (ha : th.high ≤ x) (hb : x < th.medium) :
    hfRaw th x = 60 + (1 - (x - th.high) / (th.medium - th.high)) * 30 := by
  obtain ⟨h1, h2, h3, h4⟩ := hth
  unfold hfRaw
  rw [if_neg (by linarith), if_neg (not_lt.mpr ha), if_pos hb]

theorem hfRaw_eval_b4 (th : Thresholds) (hth : ThOrdered th) {x : ℚ}
    (ha : th.medium ≤ x) (hb : x < th.low) :
    hfRaw th x = 30 + (1 - (x - th.medium) / (th.low - th.medium)) * 30 := by
  obtain ⟨h1, h2, h3, h4⟩ := hth
  unfold hfRaw
  rw [if_neg (by linarith), if_neg (not_lt.mpr (by linarith)), if_neg (not_lt.mpr ha),
    if_pos hb]

theorem hfRaw_eval_b5 (th : Thresholds) (hth : ThOrdered th) {x : ℚ}
    (ha : th.low ≤ x) (hb : x < th.safe) :
    hfRaw th x = 10 + (1 - (x - th.low) / (th.safe - th.low)) * 20 := by
  obtain ⟨h1, h2, h3, h4⟩ := hth
  unfold hfRaw
  rw [if_neg (by linarith), if_neg (not_lt.mpr (by linarith)),
    if_neg (not_lt.mpr (by linarith)), if_neg (not_lt.mpr ha), if_pos hb]

theorem hfRaw_eval_b6 (th : Thresholds) (hth : ThOrdered th) {x : ℚ}
    (ha : th.safe ≤ x) :
    hfRaw th x = max 0 (10 - (x - th.safe) * 5) := by
  obtain ⟨h1, h2, h3, h4⟩ := hth
  unfold hfRaw
  rw [if_neg (by linarith), if_neg (not_lt.mpr (by linarith)),
    if_neg (not_lt.mpr (by linarith)), if_neg (not_lt.mpr (by linarith)),
    if_neg (not_lt.mpr ha)]

theorem hfRaw_le_100 (th : Thresholds) (hth : ThOrdered th) (x : ℚ) :
    hfRaw th x ≤ 100 := by
  obtain ⟨h1, h2, h3, h4⟩ := hth
  unfold hfRaw
  split_ifs with ha hb hc hd he
  · exact le_refl 100
  · have hq : 0 ≤ (x - 1) / (th.high - 1) :=
      div_nonneg (by linarith [not_le.mp ha]) (by linarith)
    linarith
  · have hq : 0 ≤ (x - th.high) / (th.medium - th.high) :=
      div_nonneg (by linarith [not_lt.mp hb]) (by linarith)
    linarith
  · have hq : 0 ≤ (x - th.medium) / (th.low - th.medium) :=
      div_nonneg (by linarith [not_lt.mp hc]) (by linarith)
    linarith
  · have hq : 0 ≤ (x - th.low) / (th.safe - th.low) :=
      div_nonneg (by linarith [not_lt.mp hd]) (by linarith)
    linarith
  · exact max_le (by norm_num) (by linarith [not_lt.mp he])

theorem hfRaw_gt_90 (th : Thresholds) (hth : ThOrdered th) {x : ℚ}
    (hx : x < th.high) : 90 < hfRaw th x := by
  obtain ⟨h1, h2, h3, h4⟩ := hth
  unfold hfRaw
  split_ifs with ha
  · norm_num
  · have hq : (x - 1) / (th.high - 1) < 1 :=
      (div_lt_one (by linarith)).mpr (by linarith)
    linarith

theorem hfRaw_le_90 (th : Thresholds) (hth : ThOrdered th) {x : ℚ}
    (hx : th.high ≤ x) : hfRaw th x ≤ 90 := by
  obtain ⟨h1, h2, h3, h4⟩ := hth
  unfold hfRaw
  split_ifs with ha hb hc hd he
  · linarith
  · linarith
  · have hq : 0 ≤ (x - th.high) / (th.medium - th.high) :=
      div_nonneg (by linarith) (by linarith)
    linarith
  · have hq : 0 ≤ (x - th.medium) / (th.low - th.medium) :=
      div_nonneg (by linarith [not_lt.mp hc]) (by linarith)
    linarith
  · have hq : 0 ≤ (x - th.low) / (th.safe - th.low) :=
      div_nonneg (by linarith [not_lt.mp hd]) (by linarith)
    linarith
  · exact max_le (by norm_num) (by linarith [not_lt.mp he])

theorem hfRaw_gt_60 (th : Thresholds) (hth : ThOrdered th) {x : ℚ}
    (hx : x < th.medium) : 60 < hfRaw th x := by
  obtain ⟨h1, h2, h3, h4⟩ := hth
  unfold hfRaw
  split_ifs with ha hb
  · norm_num
  · have hq : (x - 1) / (th.high - 1) < 1 :=
      (div_lt_one (by linarith)).mpr (by linarith)
    linarith
  · have hq : (x - th.high) / (th.medium - th.high) < 1 :=
      (div_lt_one (by linarith)).mpr (by linarith)
    linarith

theorem hfRaw_le_60 (th : Thresholds) (hth : ThOrdered th) {x : ℚ}
    (hx : th.medium ≤ x) : hfRaw th x ≤ 60 := by
  obtain ⟨h1, h2, h3, h4⟩ := hth
  unfold hfRaw
  split_ifs with ha hb hc hd he
  · linarith
  · linarith
  · linarith
  · have hq : 0 ≤ (x - th.medium) / (th.low - th.medium) :=
      div_nonneg (by linarith) (by linarith)
    linarith
  · have hq : 0 ≤ (x - th.low) / (th.safe - th.low) :=
      div_nonneg (by linarith [not_lt.mp hd]) (by linarith)
    linarith
  · exact max_le (by norm_num) (by linarith [not_lt.mp he])

theorem hfRaw_gt_30 (th : Thresholds) (hth : ThOrdered th) {x : ℚ}
    (hx : x < th.low) : 30 < hfRaw th x := by
  obtain ⟨h1, h2, h3, h4⟩ := hth
  unfold hfRaw
  split_ifs with ha hb hc
  · norm_num
  · have hq : (x - 1) / (th.high - 1) < 1 :=
      (div_lt_one (by linarith)).mpr (by linarith)
    linarith
  · have hq : (x - th.high) / (th.medium - th.high) < 1 :=
      (div_lt_one (by linarith)).mpr (by linarith)
    linarith
  · have hq : (x - th.medium) / (th.low - th.medium) < 1 :=
      (div_lt_one (by linarith)).mpr (by linarith)
    linarith

theorem hfRaw_le_30 (th : Thresholds) (hth : ThOrdered th) {x : ℚ}
    (hx : th.low ≤ x) : hfRaw th x ≤ 30 := by
  obtain ⟨h1, h2, h3, h4⟩ := hth
  unfold hfRaw
  split_ifs with ha hb hc hd he
  · linarith
  · linarith
  · linarith
  · linarith
  · have hq : 0 ≤ (x - th.low) / (th.safe - th.low) :=
      div_nonneg (by linarith) (by linarith)
    linarith
  · exact max_le (by norm_num) (by linarith [not_lt.mp he])

theorem hfRaw_gt_10 (th : Thresholds) (hth : ThOrdered th) {x : ℚ}
    (hx : x < th.safe) : 10 < hfRaw th x := by
  obtain ⟨h1, h2, h3, h4⟩ := hth
  unfold hfRaw
  split_ifs with ha hb hc hd
  · norm_num
  · have hq : (x - 1) / (th.high - 1) < 1 :=
      (div_lt_one (by linarith)).mpr (by linarith)
    linarith
  · have hq : (x - th.high) / (th.medium - th.high) < 1 :=
      (div_lt_one (by linarith)).mpr (by linarith)
    linarith
  · have hq : (x - th.medium) / (th.low - th.medium) < 1 :=
      (div_lt_one (by linarith)).mpr (by linarith)
    linarith
  · have hq : (x - th.low) / (th.safe - th.low) < 1 :=
      (div_lt_one (by linarith)).mpr (by linarith)
    linarith

theorem hfRaw_le_10 (th : Thresholds) (hth : ThOrdered th) {x : ℚ}
    (hx : th.safe ≤ x) : hfRaw th x ≤ 10 := by
  obtain ⟨h1, h2, h3, h4⟩ := hth
  rw [hfRaw_eval_b6 th ⟨h1, h2, h3, h4⟩ hx]
  exact max_le (by norm_num) (by linarith)

/-- The piecewise health-factor score never increases as the health factor
grows. -/
theorem hfRaw_anti (th : Thresholds) (hth : ThOrdered th) {a b : ℚ} (hab : a ≤ b) :
    hfRaw th b ≤ hfRaw th a := by
  obtain ⟨h1, h2, h3, h4⟩ := id hth
  rcases le_or_lt b 1 with hb1 | hb1
  · rw [hfRaw_eq_100 th hb1, hfRaw_eq_100 th (le_trans hab hb1)]
  rcases lt_or_le b th.high with hbh | hbh
  · rcases le_or_lt a 1 with ha1 | ha1
    · rw [hfRaw_eq_100 th ha1]
      exact hfRaw_le_100 th hth b
    · rw [hfRaw_eval_b2 th hb1 hbh, hfRaw_eval_b2 th ha1 (lt_of_le_of_lt hab hbh)]
      have hq := (div_le_div_iff_of_pos_right
        (show (0:ℚ) < th.high - 1 by linarith)).mpr
        (show a - 1 ≤ b - 1 by linarith)
      linarith
  rcases lt_or_le b th.medium with hbm | hbm
  · rcases lt_or_le a th.high with hah | hah
    · linarith [hfRaw_le_90 th hth hbh, hfRaw_gt_90 th hth hah]
    · rw [hfRaw_eval_b3 th hth hbh hbm, hfRaw_eval_b3 th hth hah (lt_of_le_of_lt hab hbm)]
      have hq := (div_le_div_iff_of_pos_right
        (show (0:ℚ) < th.medium - th.high by linarith)).mpr
        (show a - th.high ≤ b - th.high by linarith)
      linarith
  rcases lt_or_le b th.low with hbl | hbl
  · rcases lt_or_le a th.medium with ham | ham
    · linarith [hfRaw_le_60 th hth hbm, hfRaw_gt_60 th hth ham]
    · rw [hfRaw_eval_b4 th hth hbm hbl, hfRaw_eval_b4 th hth ham (lt_of_le_of_lt hab hbl)]
      have hq := (div_le_div_iff_of_pos_right
        (show (0:ℚ) < th.low - th.medium by linarith)).mpr
        (show a - th.medium ≤ b - th.medium by linarith)
      linarith
  rcases lt_or_le b th.safe with hbs | hbs
  · rcases lt_or_le a th.low with hal | hal
    · linarith [hfRaw_le_30 th hth hbl, hfRaw_gt_30 th hth hal]
    · rw [hfRaw_eval_b5 th hth hbl hbs, hfRaw_eval_b5 th hth hal (lt_of_le_of_lt hab hbs)]
      have hq := (div_le_div_iff_of_pos_right
        (show (0:ℚ) < th.safe - th.low by linarith)).mpr
        (show a - th.low ≤ b - th.low by linarith)
      linarith
  rcases lt_or_le a th.safe with has | has
  · linarith [hfRaw_le_10 th hth hbs, hfRaw_gt_10 th hth has]
  · rw [hfRaw_eval_b6 th hth hbs, hfRaw_eval_b6 th hth has]
    exact max_le_max le_rfl (by linarith)

theorem ThOrdered_effective (cfg : RiskEngineConfig) (pos : LendingPosition)
    (h : ThOrdered cfg.thresholds) : ThOrdered (getEffectiveThresholds cfg pos) := by
  obtain ⟨h1, h2, h3, h4⟩ := h
  simp only [getEffectiveThresholds]
  split_ifs with h0
  · exact ⟨h1, h2, h3, h4⟩
  all_goals exact ⟨by linarith, by linarith, by linarith, by linarith⟩

theorem getEffectiveThresholds_congr (cfg : RiskEngineConfig) {p q : LendingPosition}
    (h : p.collateral = q.collateral) :
    getEffectiveThresholds cfg p = getEffectiveThresholds cfg q := by
  unfold getEffectiveThresholds totalCollateralUsd
  rw [h]

theorem assessUtilization_congr {p q : LendingPosition}
    (hc : p.collateral = q.collateral) (hd : p.debt = q.debt) :
    assessUtilization p = assessUtilization q := by
  unfold assessUtilization totalCollateralUsd totalDebtUsd
  rw [hc, hd]

theorem assessConcentration_congr {p q : LendingPosition}
    (hc : p.collateral = q.collateral) :
    assessConcentration p = assessConcentration q := by
  unfold assessConcentration totalCollateralUsd
  rw [hc]

theorem assessProtocolRisk_congr {p q : LendingPosition}
    (hp : p.protocol = q.protocol) :
    assessProtocolRisk p = assessProtocolRisk q := by
  unfold assessProtocolRisk
  rw [hp]

theorem assessHealthFactor_score (cfg : RiskEngineConfig) (pos : LendingPosition) :
    (assessHealthFactor cfg pos).score =
      max 0 (min 100 (jsRound (hfRaw (getEffectiveThresholds cfg pos) pos.healthFactor))) :=
  rfl

theorem assessHealthFactor_weight (cfg : RiskEngineConfig) (pos : LendingPosition) :
    (assessHealthFactor cfg pos).weight = 0.45 :=
  rfl

theorem assessUtilization_weight (pos : LendingPosition) :
    (assessUtilization pos).weight = 0.15 := by
  simp only [assessUtilization]
  split_ifs <;> rfl

theorem assessConcentration_weight (pos : LendingPosition) :
    (assessConcentration pos).weight = 0.10 := by
  simp only [assessConcentration]
  split_ifs <;> rfl

theorem assessTrend_weight (cfg : RiskEngineConfig) (hist : List HealthSnapshot) :
    (assessTrend cfg hist).weight = 0.20 := by
  simp only [assessTrend]
  split_ifs <;> rfl

theorem applyFloorOverride_mono {h1 h2 s1 s2 : ℚ} (hh : h1 ≤ h2) (hs : s2 ≤ s1) :
    applyFloorOverride h2 s2 ≤ applyFloorOverride h1 s1 := by
  unfold applyFloorOverride
  split_ifs <;>
    first
    | linarith
    | exact le_trans hs (le_max_left _ _)
    | exact max_le (le_trans hs (le_max_left _ _)) (le_trans (by norm_num) (le_max_right _ _))

/-- C8: for two positions identical in collateral list, debt list,
liquidation threshold and protocol, assessed against the same trend history
at the same time (with ordered thresholds in the configuration), the one
with the lower health factor never receives a lower composite risk score. -/
theorem assessPosition_hf_monotone (cfg : RiskEngineConfig) (hist : List HealthSnapshot)
    (now : ℚ) (p1 p2 : LendingPosition) (hth : ThOrdered cfg.thresholds)
    (hcol : p1.collateral = p2.collateral) (hdebt : p1.debt = p2.debt)
    (hliq : p1.liquidationThreshold = p2.liquidationThreshold)
    (hprot : p1.protocol = p2.protocol)
    (hhf : p1.healthFactor ≤ p2.healthFactor) :
    (assessPosition cfg hist now p2).riskScore ≤
      (assessPosition cfg hist now p1).riskScore := by
  rw [assessPosition_riskScore, assessPosition_riskScore]
  have hTh : getEffectiveThresholds cfg p2 = getEffectiveThresholds cfg p1 :=
    getEffectiveThresholds_congr cfg hcol.symm
  have hthEff : ThOrdered (getEffectiveThresholds cfg p1) := ThOrdered_effective cfg p1 hth
  have hHF : (assessHealthFactor cfg p2).score ≤ (assessHealthFactor cfg p1).score := by
    rw [assessHealthFactor_score, assessHealthFactor_score, hTh]
    exact max_le_max le_rfl (min_le_min le_rfl (jsRound_mono (hfRaw_anti _ hthEff hhf)))
  have hT : (assessTrend cfg
        (recordSnapshot cfg hist { healthFactor := p2.healthFactor, timestamp := now })).score ≤
      (assessTrend cfg
        (recordSnapshot cfg hist { healthFactor := p1.healthFactor, timestamp := now })).score :=
    assessTrend_recorded_anti cfg hist now hhf
  have hU : assessUtilization p2 = assessUtilization p1 :=
    assessUtilization_congr hcol.symm hdebt.symm
  have hC : assessConcentration p2 = assessConcentration p1 :=
    assessConcentration_congr hcol.symm
  have hP : assessProtocolRisk p2 = assessProtocolRisk p1 :=
    assessProtocolRisk_congr hprot.symm
  have hcomp : compositeScore (riskFactors cfg
        (recordSnapshot cfg hist { healthFactor := p2.healthFactor, timestamp := now }) p2) ≤
      compositeScore (riskFactors cfg
        (recordSnapshot cfg hist { healthFactor := p1.healthFactor, timestamp := now }) p1) := by
    unfold riskFactors compositeScore
    rw [hU, hC, hP]
    rcases hopt : assessProtocolRisk p1 with _ | f
    · simp only [List.map_append, List.map_cons, List.map_nil, List.sum_append,
        List.sum_cons, List.sum_nil, List.append_nil,
        assessHealthFactor_weight, assessUtilization_weight,
        assessConcentration_weight, assessTrend_weight]
      apply min_le_min le_rfl
      apply jsRound_mono
      apply (div_le_div_iff_of_pos_right (by norm_num)).mpr
      linarith
    · have hfw : f.weight = 0.10 := by
        simp only [assessProtocolRisk] at hopt
        split_ifs at hopt <;>
          first
          | exact Option.noConfusion hopt
          | rw [← Option.some.inj hopt]
      simp only [List.map_append, List.map_cons, List.map_nil, List.sum_append,
        List.sum_cons, List.sum_nil, List.append_nil,
        assessHealthFactor_weight, assessUtilization_weight,
        assessConcentration_weight, assessTrend_weight, hfw]
      apply min_le_min le_rfl
      apply jsRound_mono
      apply (div_le_div_iff_of_pos_right (by norm_num)).mpr
      linarith
  exact applyFloorOverride_mono hhf hcomp

theorem assessPosition_hf_monotone_witness :
    ThOrdered defaultRiskConfig.thresholds ∧
    posP1.healthFactor ≤ posP2.healthFactor ∧
    (assessPosition defaultRiskConfig [] 0 posP2).riskScore ≤
      (assessPosition defaultRiskConfig [] 0 posP1).riskScore :=
  ⟨by norm_num [ThOrdered, defaultRiskConfig],
   by norm_num [posP1, posP2],
   assessPosition_hf_monotone defaultRiskConfig [] 0 posP1 posP2
     (by norm_num [ThOrdered, defaultRiskConfig]) rfl rfl rfl rfl
     (by norm_num [posP1, posP2])⟩

end Varuna
